import Mathlib

/-!
Verification development for the survey-programmer repository.

The development shallow-embeds the two LangGraph survey-designer graphs
(src/survey_designerV2/graph.py and src/survey_designer/graph.py): the
state aggregates, the node transition functions, the routers, and the
JSON-recovery helper. Pure Python functions become Lean functions;
every external collaborator call (LangSmith prompt invocation) is passed
to a node as an explicit parameter holding the call result, so theorems
quantify over all possible collaborator behaviours. Python stdlib
routines used by the code (json.loads, ast.literal_eval, re.search,
str.strip, str.lower) are modelled by executable Lean functions over the
fragment the repository exercises; their doc comments state the scope.
-/

/-! ## Python string primitives -/

/-- Whitespace recognised by Python str.strip and str.lstrip (ASCII part:
space, tab, newline, carriage return, vertical tab, form feed). -/
def isPySpace (c : Char) : Bool :=
  decide (c = ' ' ∨ c = '\t' ∨ c = '\n' ∨ c = '\x0d' ∨ c = '\x0b' ∨ c = '\x0c')

/-- Model of Python str.lstrip on a character list. -/
def pyLStripList (l : List Char) : List Char := l.dropWhile isPySpace

/-- Model of Python str.strip on a character list: drop whitespace from
both ends. -/
def pyStripList (l : List Char) : List Char :=
  ((l.dropWhile isPySpace).reverse.dropWhile isPySpace).reverse

/-- Model of Python str.strip. -/
def pyStrip (s : String) : String := ⟨pyStripList s.data⟩

/-- Model of Python str.lower restricted to ASCII: uppercase letters are
shifted to lowercase, all other characters (including every whitespace
character) are unchanged. -/
def asciiToLower (c : Char) : Char :=
  if 65 ≤ c.toNat ∧ c.toNat ≤ 90 then Char.ofNat (c.toNat + 32) else c

/-- Model of Python str.lower (ASCII fragment). -/
def pyLower (s : String) : String := ⟨s.data.map asciiToLower⟩

/-- Boolean test for one list starting another
(decidable companion of the prefix order on lists). -/
def isPre : List Char → List Char → Bool
  | [], _ => true
  | a :: as, bs =>
    match bs with
    | [] => false
    | b :: rest => decide (a = b) && isPre as rest

/-- Model of the Python substring test needle in hay: some contiguous
run of hay equals needle. -/
def listContains (needle : List Char) : List Char → Bool
  | [] => needle.isEmpty
  | c :: rest => isPre needle (c :: rest) || listContains needle rest

/-! ## JSON values and the parser models -/

/-- JSON-like value, the payload type flowing out of json.loads and
ast.literal_eval in the code. Numbers are modelled as integers: the
repository never exercises floating-point payloads. -/
inductive JVal where
  | jnull
  | jbool (b : Bool)
  | jnum (n : Int)
  | jstr (s : String)
  | jarr (xs : List JVal)
  | jobj (fields : List (String × JVal))

/-- Whitespace accepted between JSON tokens by json.loads. -/
def isJsonWs (c : Char) : Bool :=
  decide (c = ' ' ∨ c = '\t' ∨ c = '\n' ∨ c = '\x0d')

/-- Escape map for JSON string literals (the \\uXXXX form is outside the
modelled fragment and is rejected). -/
def jsonEsc : Char → Option Char
  | 'n' => some '\n'
  | 't' => some '\t'
  | 'r' => some '\x0d'
  | 'b' => some '\x08'
  | 'f' => some '\x0c'
  | '"' => some '"'
  | '\\' => some '\\'
  | '/' => some '/'
  | _ => none

/-- Parse the body of a double-quoted JSON string after the opening
quote; returns the string and the input following the closing quote. -/
def parseQuoted (esc : Char → Option Char) (quote : Char) :
    List Char → List Char → Option (String × List Char)
  | _, [] => none
  | acc, '\\' :: e :: rest =>
    match esc e with
    | some c => parseQuoted esc quote (c :: acc) rest
    | none => none
  | acc, c :: rest =>
    if c == quote then some (⟨acc.reverse⟩, rest)
    else if c == '\\' then none
    else parseQuoted esc quote (c :: acc) rest

/-- Digits-to-number accumulator. -/
def digitsToNat (l : List Char) : Nat :=
  l.foldl (fun n c => n * 10 + (c.toNat - 48)) 0

/-- Parse a decimal integer token (digits already isolated). A multi-digit
token with a leading zero is rejected, as both json.loads and
ast.literal_eval reject it. -/
def parseIntToken (l : List Char) : Option (Int × List Char) :=
  match l.span (·.isDigit) with
  | ([], _) => none
  | ('0' :: _ :: _, _) => none
  | (ds, rest) => some ((digitsToNat ds : Int), rest)

/-- Parser mode: a single JSON value, the field list of an object after
its opening brace, or the item list of an array after its opening
bracket. -/
inductive JMode where
  | value
  | obj
  | arr

/-- Parser result for each mode. -/
inductive JRes where
  | vres (v : JVal) (rest : List Char)
  | ores (fs : List (String × JVal)) (rest : List Char)
  | ares (xs : List JVal) (rest : List Char)

/-- Recursive descent over the JSON grammar, recursion measured by fuel.
The trailingComma flag distinguishes the Python-literal grammar (which
accepts a trailing comma in a display) from strict JSON. The strParse
argument supplies the string-literal parser, so the same skeleton models
json.loads (double quotes only) and ast.literal_eval (both quote kinds,
True/False/None spellings). -/
def parseJ (strParse : List Char → Option (String × List Char))
    (lits : List (List Char × JVal)) (trailingComma : Bool) :
    Nat → JMode → List Char → Option JRes
  | 0, _, _ => none
  | fuel + 1, .value, l =>
    match l.dropWhile isJsonWs with
    | '\x7b' :: rest =>
      match rest.dropWhile isJsonWs with
      | '\x7d' :: r2 => some (.vres (.jobj []) r2)
      | _ =>
        match parseJ strParse lits trailingComma fuel .obj rest with
        | some (.ores fs r) => some (.vres (.jobj fs) r)
        | _ => none
    | '[' :: rest =>
      match rest.dropWhile isJsonWs with
      | ']' :: r2 => some (.vres (.jarr []) r2)
      | _ =>
        match parseJ strParse lits trailingComma fuel .arr rest with
        | some (.ares xs r) => some (.vres (.jarr xs) r)
        | _ => none
    | c :: rest =>
      match strParse (c :: rest) with
      | some (s, r) => some (.vres (.jstr s) r)
      | none =>
        match lits.find? (fun kv => isPre kv.1 (c :: rest)) with
        | some (kw, v) => some (.vres v ((c :: rest).drop kw.length))
        | none =>
          if c == '-' then
            match parseIntToken rest with
            | some (n, r) => some (.vres (.jnum (-n)) r)
            | none => none
          else if c == '+' ∧ trailingComma then
            match parseIntToken rest with
            | some (n, r) => some (.vres (.jnum n) r)
            | none => none
          else
            match parseIntToken (c :: rest) with
            | some (n, r) => some (.vres (.jnum n) r)
            | none => none
    | [] => none
  | fuel + 1, .obj, l =>
    match strParse (l.dropWhile isJsonWs) with
    | some (k, r1) =>
      match r1.dropWhile isJsonWs with
      | ':' :: r2 =>
        match parseJ strParse lits trailingComma fuel .value r2 with
        | some (.vres v r3) =>
          match r3.dropWhile isJsonWs with
          | ',' :: r4 =>
            match r4.dropWhile isJsonWs with
            | '\x7d' :: r5 =>
              if trailingComma then some (.ores [(k, v)] r5) else none
            | _ =>
              match parseJ strParse lits trailingComma fuel .obj r4 with
              | some (.ores fs r5) => some (.ores ((k, v) :: fs) r5)
              | _ => none
          | '\x7d' :: r4 => some (.ores [(k, v)] r4)
          | _ => none
        | _ => none
      | _ => none
    | none => none
  | fuel + 1, .arr, l =>
    match parseJ strParse lits trailingComma fuel .value l with
    | some (.vres v r1) =>
      match r1.dropWhile isJsonWs with
      | ',' :: r2 =>
        match r2.dropWhile isJsonWs with
        | ']' :: r3 =>
          if trailingComma then some (.ares [v] r3) else none
        | _ =>
          match parseJ strParse lits trailingComma fuel .arr r2 with
          | some (.ares xs r3) => some (.ares (v :: xs) r3)
          | _ => none
      | ']' :: r2 => some (.ares [v] r2)
      | _ => none
    | _ => none

/-- JSON string literals: double quotes only. -/
def jsonStrLit (l : List Char) : Option (String × List Char) :=
  match l with
  | '"' :: rest => parseQuoted jsonEsc '"' [] rest
  | _ => none

/-- JSON keyword literals. -/
def jsonLits : List (List Char × JVal) :=
  [("true".data, .jbool true), ("false".data, .jbool false),
   ("null".data, .jnull)]

/-- Escape map for Python string literals: known escapes translate, an
unknown escape keeps the backslash, following CPython. The translating
case is folded into parseQuoted via this total map, so unknown escapes
are modelled by the preceding backslash surviving. -/
def pyEsc : Char → Option Char
  | '\x27' => some '\x27'
  | '"' => some '"'
  | '\\' => some '\\'
  | 'n' => some '\n'
  | 't' => some '\t'
  | 'r' => some '\x0d'
  | _ => none

/-- Python string literals: single or double quotes. -/
def pyStrLit (l : List Char) : Option (String × List Char) :=
  match l with
  | '"' :: rest => parseQuoted pyEsc '"' [] rest
  | '\x27' :: rest => parseQuoted pyEsc '\x27' [] rest
  | _ => none

/-- Python keyword literals. -/
def pyLits : List (List Char × JVal) :=
  [("True".data, .jbool true), ("False".data, .jbool false),
   ("None".data, .jnull)]

/-- Model of CPython json.loads on the fragment the repository exercises:
objects with double-quoted keys, arrays, double-quoted strings, integer
numbers, true/false/null. Returns none exactly where json.loads raises
json.JSONDecodeError (floats, \\uXXXX escapes and NaN/Infinity are
outside the modelled fragment). -/
def jsonLoads (s : String) : Option JVal :=
  match parseJ jsonStrLit jsonLits false (s.length + 1) .value s.data with
  | some (.vres v rest) =>
    if (rest.dropWhile isJsonWs).isEmpty then some v else none
  | _ => none

/-- Model of CPython ast.literal_eval on the fragment the repository
exercises: dict displays with string keys (trailing comma allowed),
lists, single- or double-quoted strings, signed integers,
True/False/None. Returns none exactly where literal_eval raises
ValueError or SyntaxError (tuples, sets, floats and complex numbers are
outside the modelled fragment). -/
def literalEval (s : String) : Option JVal :=
  match parseJ pyStrLit pyLits true (s.length + 1) .value s.data with
  | some (.vres v rest) =>
    if (rest.dropWhile isJsonWs).isEmpty then some v else none
  | _ => none

/-! ## The regex clip and the recovery ladder (_coerce_json) -/

/-- Everything of the list up to and including the last occurrence of c;
none when c does not occur. -/
def takeThroughLast (c : Char) (l : List Char) : List Char :=
  (l.reverse.dropWhile (fun x => x != c)).reverse

/-- Model of re.search applied with the pattern brace-open dot-star
brace-close under re.S, returning the matched slice: the match runs from
the first opening brace that still has a closing brace after it, through
the last closing brace of the whole text (the dot-star is greedy). -/
def clipBraces (s : String) : Option String :=
  match s.data.dropWhile (fun x => x != '\x7b') with
  | '\x7b' :: rest =>
    if rest.contains '\x7d' then
      some ⟨'\x7b' :: takeThroughLast '\x7d' rest⟩
    else none
  | _ => none

/-- One rung pass of _coerce_json: strict JSON parse, then the lenient
Python-literal parse, then the clip-and-retry self call, else failure. -/
inductive CoerceOut where
  | done (r : Option JVal)
  | recurse (t : String)

/-- One evaluation step of _coerce_json (graph.py lines 36-57): try
json.loads, then ast.literal_eval, then clip the first-brace-to-last-
brace slice and recurse on it, else return None. -/
def coerceStep (t : String) : CoerceOut :=
  match jsonLoads t with
  | some v => .done (some v)
  | none =>
    match literalEval t with
    | some v => .done (some v)
    | none =>
      match clipBraces t with
      | some u => .recurse u
      | none => .done none

/-- Fuel-indexed unfolding of the self-recursion of _coerce_json. The
Python function recurses with no decreasing measure, so the embedding
makes the call depth explicit: a result some r means the Python call
returns r within that depth, none means the depth was exhausted. -/
def coerceFuel : Nat → String → Option (Option JVal)
  | 0, _ => none
  | fuel + 1, t =>
    match coerceStep t with
    | .done r => some r
    | .recurse u => coerceFuel fuel u

/-- Model of _coerce_json. Each recursive call is on a contiguous slice
of the current text, so the text never grows: length s + 2 steps suffice
for every terminating run, and the outer none is reserved for runs in
which the Python original never returns (unbounded self-recursion). -/
def _coerce_json (s : String) : Option (Option JVal) :=
  coerceFuel (s.length + 2) s

/-! ## Python repr of a parsed JSON-like value

Needed because _run_chain builds AIMessage(content=str(raw)) when the
raw invocation result is already a dict. -/

mutual

/-- Model of Python str/repr on a JSON-like value (string escaping is
outside the modelled fragment). -/
def pyReprJVal : JVal → String
  | .jnull => "None"
  | .jbool true => "True"
  | .jbool false => "False"
  | .jnum n => toString n
  | .jstr s => "\x27" ++ s ++ "\x27"
  | .jarr xs => "[" ++ pyReprItems xs ++ "]"
  | .jobj fs => "\x7b" ++ pyReprFields fs ++ "\x7d"

/-- Comma-joined reprs of array items. -/
def pyReprItems : List JVal → String
  | [] => ""
  | [x] => pyReprJVal x
  | x :: y :: rest => pyReprJVal x ++ ", " ++ pyReprItems (y :: rest)

/-- Comma-joined reprs of dict fields. -/
def pyReprFields : List (String × JVal) → String
  | [] => ""
  | [(k, v)] => "\x27" ++ k ++ "\x27: " ++ pyReprJVal v
  | (k, v) :: f :: rest =>
    "\x27" ++ k ++ "\x27: " ++ pyReprJVal v ++ ", " ++ pyReprFields (f :: rest)

end

/-! ## survey_designerV2: data model -/

/-- Normalised output of the V2 _run_chain: either a structured
JSON-like payload or plain text, mirroring the dict-or-str union the
Python function returns. -/
inductive CVal where
  | structured (v : JVal)
  | text (s : String)

/-- Transcript entry of the V2 graph. Human turns always carry text;
agent turns carry whatever _run_chain produced, since the nodes build
AIMessage(content=...) directly from that union value. -/
inductive MsgV2 where
  | human (content : String)
  | ai (content : CVal)

/-- State of the V2 graph (src/survey_designerV2/state.py). The fields
is_last_step, survey_json, guardrail_decision, design_router_decision,
objective_router_decision and clarified_objectives come from the State
dataclass. Modelled from the spec: the InputState base class
(util.state_util) is not in the source tree; following the spec's
ConversationState it contributes the transcript (messages) and the
thread identifier. Decision fields hold the strings the nodes store;
clarified_objectives and survey_json hold _run_chain outputs, and the
objective decision holds the raw routing-chain output, as assigned in
graph.py. -/
structure StateV2 where
  messages : List MsgV2
  thread_id : Option String
  is_last_step : Bool
  survey_json : Option CVal
  guardrail_decision : Option String
  design_router_decision : Option String
  objective_router_decision : Option CVal
  clarified_objectives : Option CVal

/-- The slice of the LangGraph RunnableConfig the V2 graph reads:
config.get("metadata", default).get("thread_id"). -/
structure RunnableConfig where
  thread_id : Option String

/-- Result of the guardrail classifier call, a dict with a direction
label and a canned response turn (graph.py indexes both keys). -/
structure GuardrailCheck where
  direction : String
  response : MsgV2

/-- The LangGraph END sentinel. -/
def langgraphEND : String := "__end__"

/-! ## survey_designerV2: _run_chain -/

/-- Raw result of awaiting a LangSmith chain in V2 _run_chain: already a
dict, a BaseMessage (whose content string is extracted), or any other
value rendered through str. -/
inductive RawV2 where
  | rdict (v : JVal)
  | rmsg (content : String)
  | rstr (s : String)

/-- Gate on attempting JSON recovery: structured output expected, or the
content starts (after lstrip) with a brace or a bracket. -/
def startsStructured (content : String) : Bool :=
  match pyLStripList content.data with
  | c :: _ => c == '\x7b' || c == '['
  | [] => false

/-- Normalisation applied by V2 _run_chain to textual content (graph.py
lines 89-97): when structured output is expected or the text looks
structured, run _coerce_json and keep a non-None result, else fall back
to the stripped text. The outer none propagates the unbounded recursion
of _coerce_json: in that case the Python call never returns. -/
def runChainText (structuredExpected : Bool) (content : String) :
    Option (CVal × List MsgV2) :=
  let msgs := [MsgV2.ai (.text content)]
  if structuredExpected || startsStructured content then
    match _coerce_json content with
    | none => none
    | some (some v) => some (.structured v, msgs)
    | some none => some (.text (pyStrip content), msgs)
  else some (.text (pyStrip content), msgs)

/-- Model of V2 _run_chain (graph.py lines 69-97) after the chain has
been awaited: a dict result is returned as-is, message content and other
values go through the textual normalisation. -/
def _run_chain (structuredExpected : Bool) (raw : RawV2) :
    Option (CVal × List MsgV2) :=
  match raw with
  | .rdict v => some (.structured v, [MsgV2.ai (.text (pyReprJVal v))])
  | .rmsg content => runChainText structuredExpected content
  | .rstr s => runChainText structuredExpected s

/-- Structured-or-text result of _run_chain, first component only. -/
def runChainOut (structuredExpected : Bool) (raw : RawV2) : Option CVal :=
  (_run_chain structuredExpected raw).map Prod.fst

/-! ## survey_designerV2: routers -/

/-- Model of guardrail_router (graph.py lines 122-129). -/
def guardrail_router (s : StateV2) : String :=
  if s.guardrail_decision == some "advance" then "objective_clarifier"
  else langgraphEND

/-- Model of design_router (graph.py lines 132-139); the config argument
of the Python function is unused there and omitted here. -/
def design_router (s : StateV2) : String :=
  if s.design_router_decision == some "revise" then "design_revision"
  else if s.design_router_decision == some "off-topic" then
    "off_topic_revision_nudge"
  else langgraphEND

/-- Model of objective_router (graph.py lines 141-148). Note that the
source consults design_router_decision, not objective_router_decision. -/
def objective_router (s : StateV2) : String :=
  if s.design_router_decision == some "revise" then "objective_reviser"
  else if s.design_router_decision == some "off-topic" then
    "off_topic_objective_nudge"
  else "initial_design"

/-! ## survey_designerV2: nodes

Each node is modelled with the result of its collaborator call(s) passed
as parameters, named after the local variable that receives the call in
graph.py; _update_state deep-copies and overrides, which is ordinary
functional record update in Lean. -/

/-- Model of initial_guardrail_node (graph.py lines 157-185). -/
def initial_guardrail_node (s : StateV2) (config : RunnableConfig)
    (guardrail_check : GuardrailCheck) : StateV2 :=
  if guardrail_check.direction == "advance" then
    { s with guardrail_decision := some guardrail_check.direction,
             thread_id := config.thread_id }
  else
    { s with messages := s.messages ++ [guardrail_check.response],
             guardrail_decision := some guardrail_check.direction,
             thread_id := config.thread_id }

/-- Model of objective_clarifier_node (graph.py lines 187-202). -/
def objective_clarifier_node (s : StateV2) (clarified_objectives : CVal) :
    StateV2 :=
  { s with messages := s.messages ++ [MsgV2.ai clarified_objectives],
           clarified_objectives := some clarified_objectives }

/-- Model of objective_reviser_node (graph.py lines 205-221). -/
def objective_reviser_node (s : StateV2) (revision : CVal) : StateV2 :=
  { s with messages := s.messages ++ [MsgV2.ai revision],
           clarified_objectives := some revision }

/-- Model of await_human_feedback_on_objectives_node (graph.py lines
224-240): the interrupt resumes with the human feedback text, the
routing chain result is stored raw in objective_router_decision, and the
human turn is appended. -/
def await_human_feedback_on_objectives_node (s : StateV2)
    (feedback : String) (route : CVal) : StateV2 :=
  { s with messages := s.messages ++ [MsgV2.human feedback],
           objective_router_decision := some route }

/-- Model of initial_design_node (graph.py lines 243-260): one chain
call produces the survey, a second produces the reflection turns; there
is no guard on clarified_objectives being present. -/
def initial_design_node (s : StateV2) (initial_survey : CVal)
    (reflection_msgs : List MsgV2) : StateV2 :=
  { s with survey_json := some initial_survey,
           messages := s.messages ++ reflection_msgs }

/-- Model of await_human_feedback_on_revision_node (graph.py lines
262-278): stores the direction field of the routing chain result. -/
def await_human_feedback_on_revision_node (s : StateV2)
    (feedback : String) (direction : String) : StateV2 :=
  { s with messages := s.messages ++ [MsgV2.human feedback],
           design_router_decision := some direction }

/-- Model of revision_reviser_node (graph.py lines 281-300): the
revision chain output replaces survey_json outright and the reflection
turns are appended; the node has no guard of any kind. -/
def revision_reviser_node (s : StateV2) (revision : CVal)
    (reflection_msgs : List MsgV2) : StateV2 :=
  { s with survey_json := some revision,
           messages := s.messages ++ reflection_msgs }

/-- The fixed apology turn of the off-topic nodes. -/
def apologyMsg : MsgV2 :=
  MsgV2.ai (.text "Sorry, I can only help with writing surveys.")

/-- Model of off_topic_revision_node (graph.py lines 303-309). -/
def off_topic_revision_node (s : StateV2) : StateV2 :=
  { s with messages := s.messages ++ [apologyMsg] }

/-- Model of off_topic_objective_node (graph.py lines 311-317). -/
def off_topic_objective_node (s : StateV2) : StateV2 :=
  { s with messages := s.messages ++ [apologyMsg] }

/-! ## survey_designerV2: node executions as a transition system -/

/-- One node execution of the V2 graph together with the collaborator
results it consumed. -/
inductive NodeActV2 where
  | guardrail (config : RunnableConfig) (check : GuardrailCheck)
  | clarifier (clarified_objectives : CVal)
  | objectiveReviser (revision : CVal)
  | awaitObjectives (feedback : String) (route : CVal)
  | initialDesign (initial_survey : CVal) (reflection_msgs : List MsgV2)
  | awaitRevision (feedback : String) (direction : String)
  | revisionReviser (revision : CVal) (reflection_msgs : List MsgV2)
  | offTopicRevision
  | offTopicObjective

/-- Dispatch one V2 node execution. -/
def stepV2 (act : NodeActV2) (s : StateV2) : StateV2 :=
  match act with
  | .guardrail config check => initial_guardrail_node s config check
  | .clarifier c => objective_clarifier_node s c
  | .objectiveReviser r => objective_reviser_node s r
  | .awaitObjectives fb route =>
    await_human_feedback_on_objectives_node s fb route
  | .initialDesign sv refl => initial_design_node s sv refl
  | .awaitRevision fb dir => await_human_feedback_on_revision_node s fb dir
  | .revisionReviser r refl => revision_reviser_node s r refl
  | .offTopicRevision => off_topic_revision_node s
  | .offTopicObjective => off_topic_objective_node s

/-- Run a sequence of V2 node executions. -/
def runV2 : List NodeActV2 → StateV2 → StateV2
  | [], s => s
  | act :: rest, s => runV2 rest (stepV2 act s)

/-! ## survey_designer (v1): data model -/

/-- Transcript entry of the v1 graph; contents are plain text. -/
inductive MsgV1 where
  | human (content : String)
  | ai (content : String)
deriving DecidableEq

/-- State of the v1 graph. The feedback and approved fields come from
the DesignerState dataclass in graph.py. Modelled from the spec: the
BaseState imported from survey_designer.state does not exist in the
source tree (state.py only declares an unused TypedDict); per the
graph.py comment it already carries survey_text, and per the spec's
ConversationState it carries the transcript. -/
structure DesignerState where
  messages : List MsgV1
  survey_text : Option String
  feedback : Option String
  approved : Bool
deriving DecidableEq

/-- Scan of an already reversed transcript for the first HumanMessage
with truthy (non-empty) content. -/
def latestHumanRev : List MsgV1 → Option String
  | [] => none
  | .human c :: rest => if c.isEmpty then latestHumanRev rest else some c
  | .ai _ :: rest => latestHumanRev rest

/-- Model of v1 _latest_human: the content of the most recent
HumanMessage whose content is truthy (non-empty), iterating
reversed(state.messages). -/
def _latest_human (ms : List MsgV1) : Option String :=
  latestHumanRev ms.reverse

/-- Raw result of awaiting a chain in v1 _run_chain: an AIMessage, or
any other value rendered through str. -/
inductive RawV1 where
  | rAI (content : String)
  | rstr (s : String)

/-- Model of v1 _run_chain (graph.py lines 42-57): an AIMessage result
is kept as the message while its stripped content is the text; any other
result is stringified and stripped, and a fresh AIMessage wraps the
stripped text. -/
def runChainV1 : RawV1 → String × List MsgV1
  | .rAI content => (pyStrip content, [MsgV1.ai content])
  | .rstr s => (pyStrip s, [MsgV1.ai (pyStrip s)])

/-- Model of v1 _reflection_messages (graph.py lines 59-72): the chain
messages when non-empty, else one AIMessage holding the text. -/
def reflection_messages (raw : RawV1) : List MsgV1 :=
  let p := runChainV1 raw
  if p.2.isEmpty then [MsgV1.ai p.1] else p.2

/-- The three approval keywords of the v1 feedback-capture nodes. -/
def approvalKeywords : List String := ["#approve", "looks good", "ship it"]

/-- Keyword containment test applied by the v1 nodes: does the
lower-cased text contain one of the approval keywords? -/
def kwApproved (t : String) : Bool :=
  approvalKeywords.any (fun k => listContains k.data (pyLower t).data)

/-! ## survey_designer (v1): nodes -/

/-- Model of v1 initial_design_node (graph.py lines 155-175). With no
truthy human message the node returns an empty partial update, which
LangGraph applies as no change at all. -/
def initial_design_node_v1 (s : DesignerState) (draftRaw reflRaw : RawV1) :
    DesignerState :=
  match _latest_human s.messages with
  | none => s
  | some _ =>
    { s with survey_text := some (runChainV1 draftRaw).1,
             feedback := none,
             approved := false,
             messages := s.messages ++ reflection_messages reflRaw }

/-- Model of v1 capture_feedback_node (graph.py lines 179-188): records
the latest truthy human message as feedback and sets approved by keyword
matching on its lower-cased text, guarded by the text not stripping to
nothing. -/
def capture_feedback_node (s : DesignerState) : DesignerState :=
  match _latest_human s.messages with
  | none => { s with feedback := none, approved := false }
  | some fb =>
    { s with feedback := some fb,
             approved := if (pyStripList fb.data).isEmpty then false
                         else kwApproved fb }

/-- Model of v1 wait_for_message_node (graph.py lines 192-204): when the
transcript does not end with a human message the node interrupts and,
on the fall-through path, returns the state unchanged; otherwise it
strips the ending human text, stores it as feedback and sets approved by
keyword matching on the lower-cased stripped text. -/
def wait_for_message_node (s : DesignerState) : DesignerState :=
  match s.messages.getLast? with
  | some (.human c) =>
    { s with feedback := some (pyStrip c),
             approved := kwApproved (pyStrip c) }
  | _ => s

/-- Model of v1 revision_node (graph.py lines 207-232): an empty partial
update when already approved, else the reviser chain output replaces
survey_text, feedback is cleared and the reflection turns are appended. -/
def revision_node (s : DesignerState) (draftRaw reflRaw : RawV1) :
    DesignerState :=
  if s.approved then s
  else
    { s with survey_text := some (runChainV1 draftRaw).1,
             feedback := none,
             messages := s.messages ++ reflection_messages reflRaw }

/-- Model of v1 finalization_node (graph.py lines 234-240). -/
def finalization_node (s : DesignerState) : DesignerState :=
  { s with messages := s.messages ++
      [MsgV1.ai "Thank you for your attention to this matter"] }

/-- Model of v1 off_topic_node (graph.py lines 242-248). -/
def off_topic_node (s : DesignerState) : DesignerState :=
  { s with messages := s.messages ++
      [MsgV1.ai "Sorry, I can only help with writing surveys."] }

/-! ## survey_designer (v1): router -/

/-- Raw result of the survey_design_router chain in _llm_route_decision:
a dict (whose direction entry may hold any JSON-like value) or a message
whose content is parsed as JSON. -/
inductive RouterRaw where
  | rdict (direction : JVal)
  | rcontent (content : String)

/-- Model of _llm_route_decision (graph.py lines 127-150): blank
feedback short-circuits to wait without any service call; a dict result
yields its direction entry unchecked; otherwise the message content is
parsed as JSON and its direction entry extracted, any failure mapping to
wait. -/
def _llm_route_decision (feedback : String) (svc : RouterRaw) : JVal :=
  if (pyStripList feedback.data).isEmpty then .jstr "wait"
  else
    match svc with
    | .rdict d => d
    | .rcontent content =>
      match jsonLoads content with
      | some (.jobj fields) =>
        match fields.lookup "direction" with
        | some d => d
        | none => .jstr "wait"
      | _ => .jstr "wait"

/-- Model of v1 _router (graph.py lines 108-124): match on the decision
string, defaulting to wait. -/
def _router (s : DesignerState) (svc : RouterRaw) : String :=
  match _llm_route_decision (s.feedback.getD "") svc with
  | .jstr "advance" => "finalization"
  | .jstr "revise" => "revision"
  | .jstr "off-topic" => "off_topic"
  | _ => "wait"

/-- The conditional-edge table attached to wait_for_message (graph.py
lines 269-278), mapping router outcomes to node names. -/
def routerEdgeMapV1 (outcome : String) : Option String :=
  if outcome == "wait" then some "wait_for_message"
  else if outcome == "revision" then some "revision"
  else if outcome == "finalization" then some "finalization"
  else if outcome == "off_topic" then some "off_topic"
  else none

/-! ## survey_designer (v1): node executions as a transition system -/

/-- One node execution of the v1 graph with its collaborator results. -/
inductive NodeActV1 where
  | initialDesign (draftRaw reflRaw : RawV1)
  | captureFeedback
  | waitForMessage
  | revision (draftRaw reflRaw : RawV1)
  | finalization
  | offTopic

/-- Dispatch one v1 node execution. -/
def stepV1 (act : NodeActV1) (s : DesignerState) : DesignerState :=
  match act with
  | .initialDesign d r => initial_design_node_v1 s d r
  | .captureFeedback => capture_feedback_node s
  | .waitForMessage => wait_for_message_node s
  | .revision d r => revision_node s d r
  | .finalization => finalization_node s
  | .offTopic => off_topic_node s

/-- Run a sequence of v1 node executions. -/
def runV1 : List NodeActV1 → DesignerState → DesignerState
  | [], s => s
  | act :: rest, s => runV1 rest (stepV1 act s)

/-! ## Lemmas about the Python string primitives -/

theorem isPre_iff : ∀ (n h : List Char), isPre n h = true ↔ n <+: h
  | [], h => by simp [isPre]
  | _ :: _, [] => by simp [isPre, List.prefix_nil]
  | a :: as, b :: bs => by
    simp [isPre, List.cons_prefix_cons, isPre_iff as bs]

theorem listContains_iff : ∀ (n h : List Char),
    listContains n h = true ↔ n <:+: h
  | n, [] => by simp [listContains, List.isEmpty_iff, List.infix_nil]
  | n, c :: rest => by
    simp [listContains, isPre_iff, listContains_iff n rest,
      List.infix_cons_iff]

theorem dropWhile_append_not (p : Char → Bool) (u cs : List Char) (c : Char)
    (hc : p c = false) :
    List.dropWhile p (u ++ c :: cs) = List.dropWhile p u ++ c :: cs := by
  rw [List.dropWhile_append]
  by_cases h : (List.dropWhile p u).isEmpty
  · rw [if_pos h, List.isEmpty_iff.mp h, List.dropWhile_cons, hc]
    simp
  · rw [if_neg h]

theorem asciiToLower_ws (c : Char) (h : isPySpace c = true) :
    asciiToLower c = c := by
  simp only [isPySpace, decide_eq_true_eq] at h
  rcases h with h | h | h | h | h | h <;> subst h <;> decide

theorem map_lower_allws (a : List Char) (h : ∀ c ∈ a, isPySpace c = true) :
    a.map asciiToLower = a := by
  induction a with
  | nil => rfl
  | cons c rest ih =>
    simp only [List.map_cons]
    rw [asciiToLower_ws c (h c (by simp)),
      ih (fun x hx => h x (by simp [hx]))]

theorem pyStripList_decomp (l : List Char) :
    ∃ a b, l = a ++ pyStripList l ++ b ∧
      (∀ c ∈ a, isPySpace c = true) ∧ (∀ c ∈ b, isPySpace c = true) := by
  refine ⟨l.takeWhile isPySpace,
    ((l.dropWhile isPySpace).reverse.takeWhile isPySpace).reverse,
    ?_, ?_, ?_⟩
  · have hmid : l.dropWhile isPySpace =
        pyStripList l ++
          ((l.dropWhile isPySpace).reverse.takeWhile isPySpace).reverse := by
      unfold pyStripList
      conv_lhs => rw [← List.reverse_reverse (l.dropWhile isPySpace),
        ← List.takeWhile_append_dropWhile isPySpace
          (l.dropWhile isPySpace).reverse]
      rw [List.reverse_append]
    conv_lhs => rw [← List.takeWhile_append_dropWhile isPySpace l, hmid]
    rw [List.append_assoc]
  · intro c hc
    exact List.mem_takeWhile_imp hc
  · intro c hc
    rw [List.mem_reverse] at hc
    exact List.mem_takeWhile_imp hc

theorem pyStripList_sandwich (a m b : List Char)
    (ha : ∀ c ∈ a, isPySpace c = true) (hb : ∀ c ∈ b, isPySpace c = true) :
    pyStripList (a ++ m ++ b) = pyStripList m := by
  have ha0 : List.dropWhile isPySpace a = [] :=
    List.dropWhile_eq_nil_iff.mpr ha
  have hb0 : List.dropWhile isPySpace b = [] :=
    List.dropWhile_eq_nil_iff.mpr hb
  have hbr0 : List.dropWhile isPySpace b.reverse = [] := by
    rw [List.dropWhile_eq_nil_iff]
    intro x hx
    exact hb x (List.mem_reverse.mp hx)
  unfold pyStripList
  rw [List.append_assoc, List.dropWhile_append, ha0]
  simp only [List.isEmpty_nil, if_true]
  rw [List.dropWhile_append]
  by_cases hm : (List.dropWhile isPySpace m).isEmpty
  · rw [if_pos hm, hb0, List.isEmpty_iff.mp hm]
  · rw [if_neg hm, List.reverse_append, List.dropWhile_append, hbr0]
    simp

theorem infix_strip_iff (kw l : List Char)
    (hh : ∃ c t, kw = c :: t ∧ isPySpace c = false)
    (hl : ∃ c t, kw.reverse = c :: t ∧ isPySpace c = false) :
    kw <:+: pyStripList l ↔ kw <:+: l := by
  obtain ⟨c₁, t₁, hk, h₁⟩ := hh
  obtain ⟨c₂, t₂, hkr, h₂⟩ := hl
  constructor
  · intro h
    obtain ⟨a, b, hdec, _, _⟩ := pyStripList_decomp l
    exact h.trans ⟨a, b, hdec.symm⟩
  · rintro ⟨u, v, huv⟩
    have h3 : List.dropWhile isPySpace l =
        List.dropWhile isPySpace u ++ (kw ++ v) := by
      conv_lhs => rw [← huv]
      simp only [hk, List.cons_append, List.append_assoc]
      exact dropWhile_append_not isPySpace u (t₁ ++ v) c₁ h₁
    have h4 : List.dropWhile isPySpace (List.dropWhile isPySpace l).reverse =
        List.dropWhile isPySpace v.reverse ++
          (kw.reverse ++ (List.dropWhile isPySpace u).reverse) := by
      rw [h3, List.reverse_append, List.reverse_append]
      simp only [hkr, List.cons_append, List.append_assoc]
      exact dropWhile_append_not isPySpace v.reverse
        (t₂ ++ (List.dropWhile isPySpace u).reverse) c₂ h₂
    have h5 : pyStripList l =
        List.dropWhile isPySpace u ++
          (kw ++ (List.dropWhile isPySpace v.reverse).reverse) := by
      unfold pyStripList
      rw [h4]
      simp [List.reverse_append, List.reverse_reverse, List.append_assoc]
    refine ⟨List.dropWhile isPySpace u,
      (List.dropWhile isPySpace v.reverse).reverse, ?_⟩
    rw [List.append_assoc]
    exact h5.symm

theorem contains_lower_strip (kw : List Char) (t : String)
    (hh : ∃ c t', kw = c :: t' ∧ isPySpace c = false)
    (hl : ∃ c t', kw.reverse = c :: t' ∧ isPySpace c = false) :
    listContains kw (pyLower (pyStrip t)).data =
      listContains kw (pyLower t).data := by
  obtain ⟨a, b, hdec, ha, hb⟩ := pyStripList_decomp t.data
  have hlowdata : (pyLower t).data =
      a ++ (pyStripList t.data).map asciiToLower ++ b := by
    show t.data.map asciiToLower = _
    conv_lhs => rw [hdec]
    rw [List.map_append, List.map_append, map_lower_allws a ha,
      map_lower_allws b hb]
  have hstripdata : (pyLower (pyStrip t)).data =
      (pyStripList t.data).map asciiToLower := rfl
  rw [hstripdata, hlowdata]
  have hiff : kw <:+: (pyStripList t.data).map asciiToLower ↔
      kw <:+: a ++ (pyStripList t.data).map asciiToLower ++ b := by
    rw [← infix_strip_iff kw (a ++ (pyStripList t.data).map asciiToLower ++ b)
         hh hl,
       pyStripList_sandwich a _ b ha hb,
       infix_strip_iff kw ((pyStripList t.data).map asciiToLower) hh hl]
  rw [Bool.eq_iff_iff, listContains_iff, listContains_iff]
  exact hiff

theorem kwApproved_pyStrip (t : String) :
    kwApproved (pyStrip t) = kwApproved t := by
  unfold kwApproved approvalKeywords
  simp only [List.any_cons, List.any_nil]
  rw [contains_lower_strip "#approve".data t
      ⟨'#', "approve".data, rfl, rfl⟩ ⟨'e', "vorppa#".data, by decide, rfl⟩,
    contains_lower_strip "looks good".data t
      ⟨'l', "ooks good".data, rfl, rfl⟩
      ⟨'d', "oog skool".data, by decide, rfl⟩,
    contains_lower_strip "ship it".data t
      ⟨'s', "hip it".data, rfl, rfl⟩ ⟨'t', "i pihs".data, by decide, rfl⟩]

theorem kwApproved_allws (t : String)
    (h : ∀ c ∈ t.data, isPySpace c = true) : kwApproved t = false := by
  by_contra hcon
  rw [Bool.not_eq_false] at hcon
  unfold kwApproved at hcon
  rw [List.any_eq_true] at hcon
  obtain ⟨k, hk, hc⟩ := hcon
  have hlow : (pyLower t).data = t.data :=
    map_lower_allws t.data h
  rw [listContains_iff, hlow] at hc
  have hmem : ∀ (c : Char) (li : List Char), k.data = c :: li → c ∈ t.data := by
    intro c li hEq
    refine hc.mem ?_
    rw [hEq]
    exact List.mem_cons_self c li
  simp only [approvalKeywords, List.mem_cons, List.not_mem_nil,
    or_false] at hk
  rcases hk with hk | hk | hk <;> subst hk
  · exact absurd (h '#' (hmem '#' "approve".data rfl)) (by decide)
  · exact absurd (h 'l' (hmem 'l' "ooks good".data rfl)) (by decide)
  · exact absurd (h 's' (hmem 's' "hip it".data rfl)) (by decide)

theorem pyStrip_empty_allws (t : String)
    (h : (pyStripList t.data).isEmpty = true) :
    ∀ c ∈ t.data, isPySpace c = true := by
  obtain ⟨a, b, hdec, ha, hb⟩ := pyStripList_decomp t.data
  rw [List.isEmpty_iff.mp h] at hdec
  intro c hc
  rw [hdec] at hc
  simp only [List.append_nil, List.mem_append] at hc
  rcases hc with hc | hc
  · exact ha c hc
  · exact hb c hc

/-! ## Transcript growth of single node executions -/

theorem stepV2_transcript (act : NodeActV2) (s : StateV2) :
    s.messages <+: (stepV2 act s).messages := by
  cases act with
  | guardrail config check =>
    show s.messages <+: (initial_guardrail_node s config check).messages
    unfold initial_guardrail_node
    split
    · exact List.prefix_refl _
    · exact List.prefix_append _ _
  | clarifier c => exact ⟨[MsgV2.ai c], rfl⟩
  | objectiveReviser r => exact ⟨[MsgV2.ai r], rfl⟩
  | awaitObjectives fb route => exact ⟨[MsgV2.human fb], rfl⟩
  | initialDesign sv refl => exact ⟨refl, rfl⟩
  | awaitRevision fb dir => exact ⟨[MsgV2.human fb], rfl⟩
  | revisionReviser r refl => exact ⟨refl, rfl⟩
  | offTopicRevision => exact ⟨[apologyMsg], rfl⟩
  | offTopicObjective => exact ⟨[apologyMsg], rfl⟩

theorem runV2_transcript (acts : List NodeActV2) (s : StateV2) :
    s.messages <+: (runV2 acts s).messages := by
  induction acts generalizing s with
  | nil => exact List.prefix_refl _
  | cons act rest ih =>
    exact (stepV2_transcript act s).trans (ih (stepV2 act s))

theorem stepV1_transcript (act : NodeActV1) (s : DesignerState) :
    s.messages <+: (stepV1 act s).messages := by
  cases act with
  | initialDesign d r =>
    show s.messages <+: (initial_design_node_v1 s d r).messages
    unfold initial_design_node_v1
    cases _latest_human s.messages with
    | none => exact List.prefix_refl _
    | some _ => exact ⟨reflection_messages r, rfl⟩
  | captureFeedback =>
    show s.messages <+: (capture_feedback_node s).messages
    unfold capture_feedback_node
    cases _latest_human s.messages with
    | none => exact List.prefix_refl _
    | some fb => exact List.prefix_refl _
  | waitForMessage =>
    show s.messages <+: (wait_for_message_node s).messages
    unfold wait_for_message_node
    cases s.messages.getLast? with
    | none => exact List.prefix_refl _
    | some m =>
      cases m with
      | human c => exact List.prefix_refl _
      | ai c => exact List.prefix_refl _
  | revision d r =>
    show s.messages <+: (revision_node s d r).messages
    unfold revision_node
    split
    · exact List.prefix_refl _
    · exact List.prefix_append _ _
  | finalization =>
    exact ⟨[MsgV1.ai "Thank you for your attention to this matter"], rfl⟩
  | offTopic =>
    exact ⟨[MsgV1.ai "Sorry, I can only help with writing surveys."], rfl⟩

theorem runV1_transcript (acts : List NodeActV1) (s : DesignerState) :
    s.messages <+: (runV1 acts s).messages := by
  induction acts generalizing s with
  | nil => exact List.prefix_refl _
  | cons act rest ih =>
    exact (stepV1_transcript act s).trans (ih (stepV1 act s))

/-! ## Claim theorems -/

/-- C5: for every node and every input state of either graph, the
transcript of the returned state has the input transcript as a prefix
(no entry edited, removed or reordered), and the append-only law carries
over to every sequence of node executions. -/
theorem c5_transcript_append_only :
    (∀ (acts : List NodeActV2) (s : StateV2),
      s.messages <+: (runV2 acts s).messages) ∧
    (∀ (acts : List NodeActV1) (s : DesignerState),
      s.messages <+: (runV1 acts s).messages) :=
  ⟨runV2_transcript, runV1_transcript⟩

/-- C6: after a revision call that actually runs, the stored draft
equals exactly the fresh chain output — the V2 node stores the revision
value it received, and the v1 node (when not short-circuited by
approval) stores the text produced by the reviser chain; the old draft
never leaks into the stored value. -/
theorem c6_draft_overwrite :
    (∀ (s : StateV2) (revision : CVal) (reflection_msgs : List MsgV2),
      (revision_reviser_node s revision reflection_msgs).survey_json =
        some revision) ∧
    (∀ (s : DesignerState) (draftRaw reflRaw : RawV1),
      s.approved = false →
      (revision_node s draftRaw reflRaw).survey_text =
        some (runChainV1 draftRaw).1) := by
  refine ⟨fun s r m => rfl, fun s d r h => ?_⟩
  simp [revision_node, h]

/-- Witness for C6 at concrete inputs. -/
theorem c6_draft_overwrite_witness :
    (revision_reviser_node
        ⟨[], none, false, some (.text "old"), none, none, none, none⟩
        (.text "new") []).survey_json = some (.text "new") ∧
    (revision_node ⟨[], some "old", some "fb", false⟩
        (.rAI "new draft") (.rAI "reflection")).survey_text =
      some "new draft" :=
  ⟨c6_draft_overwrite.1 _ _ _, c6_draft_overwrite.2 _ _ _ rfl⟩

/-- C7 counterexample: the V2 revision node, applied to a state whose
last design routing decision is advance, still replaces the draft and
appends reflection turns — it is not a no-op. -/
theorem c7_counterexample :
    (revision_reviser_node
        ⟨[], none, false, some (.text "old"), none, some "advance",
          none, none⟩
        (.text "new") [MsgV2.ai (.text "reflection")]).survey_json =
      some (.text "new") ∧
    (revision_reviser_node
        ⟨[], none, false, some (.text "old"), none, some "advance",
          none, none⟩
        (.text "new") [MsgV2.ai (.text "reflection")]).messages.length = 1 ∧
    (CVal.text "new" ≠ CVal.text "old") := by
  refine ⟨rfl, rfl, ?_⟩
  intro h
  simp at h

/-- C7 amended: only the v1 revision node short-circuits: when the
approved flag is set it returns its state unchanged, for every state and
every collaborator behaviour. -/
theorem c7_amended (s : DesignerState) (draftRaw reflRaw : RawV1)
    (h : s.approved = true) :
    revision_node s draftRaw reflRaw = s := by
  simp [revision_node, h]

/-- Witness for C7 at a concrete approved state. -/
theorem c7_amended_witness :
    revision_node ⟨[MsgV1.ai "d"], some "draft", some "fb", true⟩
        (.rAI "x") (.rAI "y") =
      ⟨[MsgV1.ai "d"], some "draft", some "fb", true⟩ :=
  c7_amended _ _ _ rfl

/-- C8 counterexample: on the advance branch the guardrail node does not
leave every other field unchanged — it overwrites thread_id with the
configuration value. -/
theorem c8_counterexample :
    (initial_guardrail_node
        ⟨[], none, false, none, none, none, none, none⟩
        ⟨some "t7"⟩ ⟨"advance", apologyMsg⟩).guardrail_decision =
      some "advance" ∧
    (initial_guardrail_node
        ⟨[], none, false, none, none, none, none, none⟩
        ⟨some "t7"⟩ ⟨"advance", apologyMsg⟩).thread_id ≠
      (⟨[], none, false, none, none, none, none, none⟩ : StateV2).thread_id := by
  refine ⟨rfl, ?_⟩
  intro h
  simp [initial_guardrail_node] at h

/-- C8 amended: the guardrail node leaves draft and objective unchanged
and stores the classifier direction; on advance the transcript is
untouched, otherwise exactly the canned response is appended; in both
branches the thread identifier from the run configuration is recorded. -/
theorem c8_amended (s : StateV2) (config : RunnableConfig)
    (check : GuardrailCheck) :
    (initial_guardrail_node s config check).survey_json = s.survey_json ∧
    (initial_guardrail_node s config check).clarified_objectives =
      s.clarified_objectives ∧
    (initial_guardrail_node s config check).thread_id = config.thread_id ∧
    (initial_guardrail_node s config check).guardrail_decision =
      some check.direction ∧
    (check.direction = "advance" →
      (initial_guardrail_node s config check).messages = s.messages) ∧
    (check.direction ≠ "advance" →
      (initial_guardrail_node s config check).messages =
        s.messages ++ [check.response]) := by
  by_cases h : check.direction = "advance"
  · simp [initial_guardrail_node, h]
  · have hb : (check.direction == "advance") = false := by
      simp [h]
    simp [initial_guardrail_node, hb, h]

/-- Witness for C8 on both branches at concrete inputs. -/
theorem c8_amended_witness :
    (initial_guardrail_node
        ⟨[], none, false, none, none, none, none, none⟩
        ⟨some "t7"⟩ ⟨"advance", apologyMsg⟩).messages = [] ∧
    (initial_guardrail_node
        ⟨[], none, false, none, none, none, none, none⟩
        ⟨some "t7"⟩ ⟨"off-topic", apologyMsg⟩).messages = [apologyMsg] ∧
    (initial_guardrail_node
        ⟨[], none, false, none, none, none, none, none⟩
        ⟨some "t7"⟩ ⟨"advance", apologyMsg⟩).thread_id = some "t7" := by
  refine ⟨(c8_amended _ _ _).2.2.2.2.1 rfl, ?_, (c8_amended _ _ _).2.2.1⟩
  have h := (c8_amended
    (⟨[], none, false, none, none, none, none, none⟩ : StateV2)
    ⟨some "t7"⟩ ⟨"off-topic", apologyMsg⟩).2.2.2.2.2 (by decide)
  simpa using h

/-- Unfolding equation for _coerce_json: one ladder pass, then the
recursion on the clipped slice with one unit of depth spent. -/
theorem _coerce_json_eq (t : String) :
    _coerce_json t =
      match coerceStep t with
      | .done r => some r
      | .recurse u => coerceFuel (t.length + 1) u := rfl

/-- C1 counterexample: on a state whose stored design decision is the
unrecognized label "banana", the V2 design-cycle router returns the END
sentinel (a terminating outcome) and the V2 objective-cycle router
returns the initial-design node (an advancing outcome); neither returns
a wait outcome. -/
theorem c1_counterexample :
    design_router
        ⟨[], none, false, none, none, some "banana", none, none⟩ =
      langgraphEND ∧
    objective_router
        ⟨[], none, false, none, none, some "banana", none, none⟩ =
      "initial_design" ∧
    langgraphEND ≠ "wait" ∧ "initial_design" ≠ "wait" := by
  refine ⟨rfl, rfl, by decide, by decide⟩

/-- C1 amended: only the v1 feedback router defaults unknown labels to
the wait outcome (and its edge table re-suspends at the
feedback-capture node); the V2 design-cycle router sends every label
outside its two handled cases to END, and the V2 objective-cycle router
sends them to the initial-design node. -/
theorem c1_amended (d : String)
    (h1 : d ≠ "advance") (h2 : d ≠ "revise") (h3 : d ≠ "off-topic") :
    (∀ (s : DesignerState) (fb : String),
      (pyStripList fb.data).isEmpty = false →
      _router { s with feedback := some fb } (.rdict (.jstr d)) = "wait" ∧
      routerEdgeMapV1 "wait" = some "wait_for_message") ∧
    (∀ s : StateV2, s.design_router_decision = some d →
      design_router s = langgraphEND ∧
      objective_router s = "initial_design") := by
  constructor
  · intro s fb hfb
    refine ⟨?_, rfl⟩
    unfold _router _llm_route_decision
    simp only [Option.getD_some, hfb]
    split <;> simp_all
  · intro s hs
    constructor
    · simp [design_router, hs, h2, h3]
    · simp [objective_router, hs, h2, h3]

/-- Witness for C1 at the unrecognized label "banana". -/
theorem c1_amended_witness :
    _router ⟨[], none, some "x", false⟩ (.rdict (.jstr "banana")) = "wait" ∧
    design_router
        ⟨[], none, false, none, none, some "banana", none, none⟩ =
      langgraphEND := by
  have h := c1_amended "banana" (by decide) (by decide) (by decide)
  exact ⟨(h.1 ⟨[], none, none, false⟩ "x" rfl).1,
    (h.2 ⟨[], none, false, none, none, some "banana", none, none⟩ rfl).1⟩

/-- C2: the V2 objective-cycle router is insensitive to the decision the
objective feedback-capture node just stored: changing
objective_router_decision never changes its outcome, the capture node
does store its routing result in objective_router_decision, and on a
state whose stored objective decision is revise (with no design
decision) the router picks the initial-design node instead of the
objective reviser. -/
theorem c2_router_ignores_stored_decision :
    (∀ (s : StateV2) (v : Option CVal),
      objective_router { s with objective_router_decision := v } =
        objective_router s) ∧
    (∀ (s : StateV2) (feedback : String) (route : CVal),
      (await_human_feedback_on_objectives_node s feedback route
        ).objective_router_decision = some route) ∧
    objective_router
        ⟨[], none, false, none, none, none, some (.text "revise"), none⟩ =
      "initial_design" ∧
    "initial_design" ≠ "objective_reviser" := by
  exact ⟨fun s v => rfl, fun s f r => rfl, rfl, by decide⟩

/-- C3 counterexample: the V2 initial-design node is not a no-op on a
state with absent clarified objectives — it still stores a draft and
appends the reflection turns. -/
theorem c3_counterexample :
    (initial_design_node
        ⟨[], none, false, none, none, none, none, none⟩
        (.text "draft") [MsgV2.ai (.text "reflection")]) ≠
      ⟨[], none, false, none, none, none, none, none⟩ := by
  intro h
  have hlen := congrArg (fun st => st.messages.length) h
  simp [initial_design_node] at hlen

/-- C3 amended: only the v1 initial-design node has the no-op guard: for
every state with no truthy human message (the node's notion of an absent
objective) it returns its input unchanged, for every collaborator
behaviour; the V2 node runs unconditionally. -/
theorem c3_amended (s : DesignerState) (draftRaw reflRaw : RawV1)
    (h : _latest_human s.messages = none) :
    initial_design_node_v1 s draftRaw reflRaw = s := by
  simp [initial_design_node_v1, h]

/-- Witness for C3 on the empty transcript. -/
theorem c3_amended_witness :
    initial_design_node_v1 ⟨[], none, none, false⟩ (.rAI "d") (.rAI "r") =
      ⟨[], none, none, false⟩ :=
  c3_amended _ _ _ rfl

/-- C4 counterexample: on a response containing two embedded JSON
objects, the clip is the greedy first-brace-to-last-brace slice, not the
first balanced fragment; that slice is a fixed point of the recovery
step, so the recovery recurses on itself forever and the node never
returns (rather than storing the first balanced object or falling back
to opaque text). -/
theorem c4_counterexample :
    clipBraces "x\x7b\"a\": 1\x7d y \x7b\"b\": 2\x7d" =
      some "\x7b\"a\": 1\x7d y \x7b\"b\": 2\x7d" ∧
    coerceStep "\x7b\"a\": 1\x7d y \x7b\"b\": 2\x7d" =
      .recurse "\x7b\"a\": 1\x7d y \x7b\"b\": 2\x7d" ∧
    runChainOut true (.rmsg "x\x7b\"a\": 1\x7d y \x7b\"b\": 2\x7d") =
      none := by
  exact ⟨rfl, rfl, rfl⟩

/-- C4 amended: the recovery ladder holds in this form: it is attempted
only when structured output is expected or the left-stripped text starts
with a brace or bracket; rung one is the strict JSON parse, rung two the
Python-literal parse, rung three clips from the first brace to the last
brace and reruns the ladder on the slice (recovering a single embedded
object but diverging on a slice that is itself unparseable), and with no
brace pair the stripped text is returned opaque, as it is whenever the
gate fails. -/
theorem c4_amended :
    (∀ (se : Bool) (c : String) (v : JVal),
      jsonLoads c = some v → (se || startsStructured c) = true →
      runChainOut se (.rmsg c) = some (.structured v)) ∧
    (∀ (se : Bool) (c : String) (v : JVal),
      jsonLoads c = none → literalEval c = some v →
      (se || startsStructured c) = true →
      runChainOut se (.rmsg c) = some (.structured v)) ∧
    (∀ (se : Bool) (c : String),
      jsonLoads c = none → literalEval c = none → clipBraces c = none →
      runChainOut se (.rmsg c) = some (.text (pyStrip c))) ∧
    (∀ c : String, startsStructured c = false →
      runChainOut false (.rmsg c) = some (.text (pyStrip c))) ∧
    runChainOut true
        (.rmsg "Sure! Here is the survey:\n\x7b\"title\": \"Remote work\"\x7d\nHope this helps.") =
      some (.structured (.jobj [("title", .jstr "Remote work")])) := by
  refine ⟨?_, ?_, ?_, ?_, rfl⟩
  · intro se c v h hg
    have hs : coerceStep c = .done (some v) := by simp [coerceStep, h]
    simp [runChainOut, _run_chain, runChainText, hg, _coerce_json_eq, hs]
  · intro se c v h1 h2 hg
    have hs : coerceStep c = .done (some v) := by
      simp [coerceStep, h1, h2]
    simp [runChainOut, _run_chain, runChainText, hg, _coerce_json_eq, hs]
  · intro se c h1 h2 h3
    have hs : coerceStep c = .done none := by
      simp [coerceStep, h1, h2, h3]
    by_cases hg : (se || startsStructured c) = true
    · simp [runChainOut, _run_chain, runChainText, hg, _coerce_json_eq, hs]
    · simp [runChainOut, _run_chain, runChainText, hg]
  · intro c h
    simp [runChainOut, _run_chain, runChainText, h]

/-- Witness for C4 on each rung at concrete inputs. -/
theorem c4_amended_witness :
    runChainOut true (.rmsg "\x7b\"a\": 1\x7d") =
      some (.structured (.jobj [("a", .jnum 1)])) ∧
    runChainOut true (.rmsg "\x7b'a': 1\x7d") =
      some (.structured (.jobj [("a", .jnum 1)])) ∧
    runChainOut true (.rmsg "no json at all") =
      some (.text "no json at all") ∧
    runChainOut false (.rmsg "plain prose") = some (.text "plain prose") := by
  refine ⟨c4_amended.1 true _ _ rfl rfl,
    c4_amended.2.1 true _ _ rfl rfl rfl, ?_, ?_⟩
  · exact c4_amended.2.2.1 true "no json at all" rfl rfl rfl
  · exact c4_amended.2.2.2.1 "plain prose" rfl

/-- C9: the recovery recursion of _coerce_json does not always shrink
and does not always terminate: the text consisting of a brace-wrapped
bare name is clipped to itself, so the step is a fixed point and every
recursion depth is exhausted — the Python original recurses on the
identical string until the interpreter aborts it. -/
theorem c9_coerce_nontermination :
    coerceStep "\x7bx\x7d" = .recurse "\x7bx\x7d" ∧
    (∀ fuel : Nat, coerceFuel fuel "\x7bx\x7d" = none) ∧
    _coerce_json "\x7bx\x7d" = none := by
  have hstep : ∀ fuel : Nat, coerceFuel fuel "\x7bx\x7d" = none := by
    intro fuel
    induction fuel with
    | zero => rfl
    | succ n ih =>
      have h1 : coerceFuel (n + 1) "\x7bx\x7d" = coerceFuel n "\x7bx\x7d" :=
        rfl
      rw [h1, ih]
  exact ⟨rfl, hstep, hstep _⟩

/-- C10 counterexample: on a transcript ending with an empty human turn,
capture_feedback_node decides approval from the earlier non-empty human
turn: it sets approved even though the ending message text contains no
approval keyword. -/
theorem c10_counterexample :
    (capture_feedback_node
        ⟨[MsgV1.human "ship it", MsgV1.ai "draft", MsgV1.human ""],
          none, none, false⟩).approved = true ∧
    [MsgV1.human "ship it", MsgV1.ai "draft",
      MsgV1.human ""].getLast? = some (MsgV1.human "") ∧
    kwApproved "" = false := by
  exact ⟨rfl, rfl, rfl⟩

/-- C10 amended: when the transcript ends with a human message,
wait_for_message_node sets approved exactly when the lower-cased text of
that ending message contains one of the three keywords;
capture_feedback_node instead sets approved exactly when the most recent
human message with non-empty content has a lower-cased text containing
one of them (which coincides except when the ending human message is
empty). -/
theorem c10_amended :
    (∀ (s : DesignerState) (rest : List MsgV1) (t : String),
      s.messages = rest ++ [MsgV1.human t] →
      (wait_for_message_node s).approved = kwApproved t) ∧
    (∀ s : DesignerState,
      (capture_feedback_node s).approved = true ↔
        ∃ u, _latest_human s.messages = some u ∧ kwApproved u = true) := by
  constructor
  · intro s rest t h
    unfold wait_for_message_node
    rw [h, List.getLast?_append]
    simp only [List.getLast?_singleton]
    exact kwApproved_pyStrip t
  · intro s
    unfold capture_feedback_node
    cases h : _latest_human s.messages with
    | none => simp
    | some fb =>
      simp only [Option.some.injEq]
      by_cases he : (pyStripList fb.data).isEmpty
      · rw [if_pos he]
        have hfalse : kwApproved fb = false :=
          kwApproved_allws fb (pyStrip_empty_allws fb he)
        constructor
        · intro hcon
          exact absurd hcon (by simp)
        · rintro ⟨u, hu, hk⟩
          rw [← hu] at hk
          rw [hfalse] at hk
          exact absurd hk (by simp)
      · rw [if_neg he]
        constructor
        · intro hk
          exact ⟨fb, rfl, hk⟩
        · rintro ⟨u, hu, hk⟩
          rw [← hu] at hk
          exact hk

/-- Witness for C10 on a transcript ending with an upper-cased approval
message surrounded by whitespace. -/
theorem c10_amended_witness :
    (wait_for_message_node
        ⟨[MsgV1.human "  LOOKS GOOD  "], none, none, false⟩).approved =
      true := by
  have h := c10_amended.1
    ⟨[MsgV1.human "  LOOKS GOOD  "], none, none, false⟩
    [] "  LOOKS GOOD  " rfl
  rw [h]
  rfl
